import Mathlib

/-!
Verification of the transform stage of `update_covid.py`.

The core under study is `transform_data(historical_data, countries_data)`
(lines 26-55 of `update_covid.py`).  The function builds a pandas DataFrame
from the date-keyed historical mapping, derives `new_cases`, `new_deaths`,
`growth_rate`, `cases_ma7`, `deaths_ma7`, `cases_per_million` and
`deaths_per_million` columns, and resets the index into a `date` column.

Modelling choices, all taken from the source:
* pandas numeric columns are IEEE-754 float64; derived columns may hold NaN
  (pandas' missing-value marker) or signed infinities (numpy division by
  zero).  We model a float value as `PFloat`: an exact rational, a signed
  infinity, or NaN.  Rounding of float64 is abstracted to exact rationals;
  NaN/infinity propagation follows IEEE-754 as numpy implements it.
* `pd.DataFrame(historical_data)` materialises the date-keyed mapping in
  dictionary insertion order; nothing in lines 26-55 sorts the index, so the
  row order of the frame is the key order of the input mapping.  We embed the
  historical input as a `List HistRow` in that insertion order, with the
  `pd.to_datetime`-parsed key as a comparable `Nat`.
* `df.diff()` puts NaN in the first row and exact differences elsewhere;
  `df.shift(1)` puts NaN in the first row; `rolling(window=7).mean()` uses
  `min_periods = 7`, so a window is averaged only when it has 7 non-NaN
  entries (windows shorter than 7, or containing the NaN first delta, give
  NaN).
* `df_countries['population'].sum()` skips nulls (`skipna=True`), so null
  populations contribute nothing; we embed the snapshot's `population`
  column as a `List (Option ℚ)` of its entries.  A snapshot without that
  column at all (empty, or no entity carrying the field) makes line 47
  raise `KeyError` and the run return nothing; those aborted runs are
  outside the embedding, so every concrete counterexample and witness
  below uses a snapshot that carries the column.
-/

/-- An IEEE-754-style scalar as pandas/numpy produce it: a finite value
(abstracted to an exact rational), a signed infinity (`pos = true` for +∞),
or NaN (pandas' missing-data marker). -/
inductive PFloat where
  | fin (q : ℚ)
  | inf (pos : Bool)
  | nan
deriving DecidableEq, Repr

/-- NaN test: `PFloat.nan` is pandas' "undefined / missing" marker. -/
def PFloat.isNan : PFloat → Bool
  | .nan => true
  | _ => false

/-- IEEE-754 addition as numpy implements it (NaN propagates; opposite
infinities give NaN). -/
def PFloat.add : PFloat → PFloat → PFloat
  | .nan, _ => .nan
  | _, .nan => .nan
  | .fin a, .fin b => .fin (a + b)
  | .inf p, .fin _ => .inf p
  | .fin _, .inf p => .inf p
  | .inf p, .inf q => if p = q then .inf p else .nan

/-- IEEE-754 subtraction as numpy implements it. -/
def PFloat.sub : PFloat → PFloat → PFloat
  | .nan, _ => .nan
  | _, .nan => .nan
  | .fin a, .fin b => .fin (a - b)
  | .inf p, .fin _ => .inf p
  | .fin _, .inf p => .inf (!p)
  | .inf p, .inf q => if p = q then .nan else .inf p

/-- IEEE-754 multiplication as numpy implements it (0 · ∞ = NaN, signs
multiply). -/
def PFloat.mul : PFloat → PFloat → PFloat
  | .nan, _ => .nan
  | _, .nan => .nan
  | .fin a, .fin b => .fin (a * b)
  | .inf p, .fin b => if b = 0 then .nan else .inf (decide (0 < b) == p)
  | .fin a, .inf p => if a = 0 then .nan else .inf (decide (0 < a) == p)
  | .inf p, .inf q => .inf (p == q)

/-- IEEE-754 division as numpy implements it: `x / 0` is NaN when `x = 0`
and a signed infinity otherwise (numpy emits `inf`, not an exception, for
float division by zero), `x / ±∞` is 0, `±∞ / ±∞` is NaN. -/
def PFloat.div : PFloat → PFloat → PFloat
  | .nan, _ => .nan
  | _, .nan => .nan
  | .fin a, .fin b =>
      if b = 0 then (if a = 0 then .nan else .inf (decide (0 < a)))
      else .fin (a / b)
  | .inf p, .fin b => if b < 0 then .inf (!p) else .inf p
  | .fin _, .inf _ => .fin 0
  | .inf _, .inf _ => .nan

/-- One row of the raw historical input: the `pd.to_datetime`-parsed date key
(line 32), modelled as a comparable `Nat`, and the cumulative `cases` and
`deaths` counters of that date.  The list order of `List HistRow` is the
insertion order of the date-keyed input mapping, which is the row order
`pd.DataFrame(historical_data)` produces (line 31); no line of
`transform_data` sorts it. -/
structure HistRow where
  date : Nat
  cases : Int
  deaths : Int
deriving DecidableEq, Repr

/-- Default `HistRow` for out-of-range `List.getD` access (never hit under
the in-bounds hypotheses of the theorems below). -/
def dHist : HistRow := ⟨0, 0, 0⟩

/-- One row of the frame returned by `transform_data` (after
`reset_index`/`rename`, lines 52-53): the date plus the two passthrough
columns and the seven derived columns of lines 38-49. -/
structure EnrichedRow where
  date : Nat
  cases : Int
  deaths : Int
  new_cases : PFloat
  new_deaths : PFloat
  growth_rate : PFloat
  cases_ma7 : PFloat
  deaths_ma7 : PFloat
  cases_per_million : PFloat
  deaths_per_million : PFloat
deriving DecidableEq, Repr

/-- Default `EnrichedRow` for out-of-range `List.getD` access. -/
def dRow : EnrichedRow := ⟨0, 0, 0, .nan, .nan, .nan, .nan, .nan, .nan, .nan⟩

/-- `series.diff()` (lines 38-39): NaN in the first row, elementwise
difference with the previous row elsewhere.  pandas upcasts the int64 input
column to float64; the differences themselves are exact. -/
def seriesDiff (xs : List ℚ) : List PFloat :=
  match xs with
  | [] => []
  | _ :: t => .nan :: List.zipWith (fun b a => PFloat.fin (b - a)) t xs

/-- `series.shift(1)` (line 40): NaN in the first row, the previous row's
value elsewhere. -/
def shiftCol (xs : List ℚ) : List PFloat :=
  match xs with
  | [] => []
  | _ :: _ => .nan :: xs.dropLast.map PFloat.fin

/-- `series.rolling(window=7).mean()` (lines 43-44).  With an integer window
and no explicit `min_periods`, pandas uses `min_periods = 7`: positions
`0..5` have fewer than 7 trailing entries and give NaN; from position 6 on,
the window is the 7 entries at `i-6..i`, and the mean is defined only when
all 7 are non-NaN (a NaN in the window leaves fewer than `min_periods`
valid observations). -/
def rolling7 (xs : List PFloat) : List PFloat :=
  (List.range xs.length).map (fun i =>
    if i < 6 then PFloat.nan
    else
      let w := (List.range 7).map (fun k => xs.getD (i - 6 + k) PFloat.nan)
      if w.any PFloat.isNan then PFloat.nan
      else (w.foldr PFloat.add (PFloat.fin 0)).div (PFloat.fin 7))

/-- `df_countries['population'].sum()` (line 47).  The argument models the
contents of the snapshot's `population` column, one entry per entity,
`none` for an entity whose population field is null.  pandas sums with
`skipna=True`: null entries are skipped, not an error, and an all-null
column sums to 0.  A snapshot in which the `population` column does not
exist at all — an empty snapshot, or one where no entity carries the
field — makes `df_countries['population']` raise `KeyError` at line 47
before any sum; such a run returns no frame and lies outside this
embedding, so every concrete snapshot used in the counterexamples and
witnesses below carries at least one population entry (possibly null). -/
def total_population : List (Option ℚ) → ℚ
  | [] => 0
  | none :: rest => total_population rest
  | some p :: rest => p + total_population rest

/-- The `cases` column of `df_historical` as float64 (exact here). -/
def casesCol (h : List HistRow) : List ℚ := h.map (fun r => (r.cases : ℚ))

/-- The `deaths` column of `df_historical` as float64 (exact here). -/
def deathsCol (h : List HistRow) : List ℚ := h.map (fun r => (r.deaths : ℚ))

/-- Line 38: `df_historical['new_cases'] = df_historical['cases'].diff()`. -/
def newCasesCol (h : List HistRow) : List PFloat := seriesDiff (casesCol h)

/-- Line 39: `df_historical['new_deaths'] = df_historical['deaths'].diff()`. -/
def newDeathsCol (h : List HistRow) : List PFloat := seriesDiff (deathsCol h)

/-- Line 40: `growth_rate = new_cases / cases.shift(1) * 100`, elementwise
float arithmetic. -/
def growthCol (h : List HistRow) : List PFloat :=
  List.zipWith (fun a b => (PFloat.div a b).mul (.fin 100))
    (newCasesCol h) (shiftCol (casesCol h))

/-- Line 43: `cases_ma7 = new_cases.rolling(window=7).mean()`. -/
def casesMa7Col (h : List HistRow) : List PFloat := rolling7 (newCasesCol h)

/-- Line 44: `deaths_ma7 = new_deaths.rolling(window=7).mean()`. -/
def deathsMa7Col (h : List HistRow) : List PFloat := rolling7 (newDeathsCol h)

/-- Lines 48-49: `(col / total_population) * 1000000`, elementwise float
arithmetic (division by a zero total population follows numpy: NaN for a
zero numerator, signed infinity otherwise). -/
def perMillionCol (tp : ℚ) (xs : List ℚ) : List PFloat :=
  xs.map (fun v => ((PFloat.fin v).div (.fin tp)).mul (.fin 1000000))

/-- `transform_data(historical_data, countries_data)`, lines 26-55: build
the frame in the input mapping's insertion order (no sort), derive the seven
metric columns, and reset the index into a `date` field.  One `EnrichedRow`
per input row, in the input's order. -/
def transform_data (h : List HistRow) (c : List (Option ℚ)) : List EnrichedRow :=
  (List.range h.length).map (fun i =>
    { date := (h.getD i dHist).date
      cases := (h.getD i dHist).cases
      deaths := (h.getD i dHist).deaths
      new_cases := (newCasesCol h).getD i .nan
      new_deaths := (newDeathsCol h).getD i .nan
      growth_rate := (growthCol h).getD i .nan
      cases_ma7 := (casesMa7Col h).getD i .nan
      deaths_ma7 := (deathsMa7Col h).getD i .nan
      cases_per_million := (perMillionCol (total_population c) (casesCol h)).getD i .nan
      deaths_per_million := (perMillionCol (total_population c) (deathsCol h)).getD i .nan })

/-! ### Access lemmas for the embedded columns -/

lemma getD_map_range {α : Type _} (f : Nat → α) (d : α) {n i : Nat} (hi : i < n) :
    ((List.range n).map f).getD i d = f i := by
  have hlen : i < ((List.range n).map f).length := by simpa using hi
  rw [List.getD_eq_getElem _ _ hlen, List.getElem_map]
  simp

lemma length_transform_data (h : List HistRow) (c : List (Option ℚ)) :
    (transform_data h c).length = h.length := by
  simp [transform_data]

lemma transform_data_getD (h : List HistRow) (c : List (Option ℚ)) {i : Nat}
    (hi : i < h.length) :
    (transform_data h c).getD i dRow =
      { date := (h.getD i dHist).date
        cases := (h.getD i dHist).cases
        deaths := (h.getD i dHist).deaths
        new_cases := (newCasesCol h).getD i .nan
        new_deaths := (newDeathsCol h).getD i .nan
        growth_rate := (growthCol h).getD i .nan
        cases_ma7 := (casesMa7Col h).getD i .nan
        deaths_ma7 := (deathsMa7Col h).getD i .nan
        cases_per_million := (perMillionCol (total_population c) (casesCol h)).getD i .nan
        deaths_per_million := (perMillionCol (total_population c) (deathsCol h)).getD i .nan } :=
  getD_map_range _ _ hi

lemma casesCol_length (h : List HistRow) : (casesCol h).length = h.length := by
  simp [casesCol]

lemma deathsCol_length (h : List HistRow) : (deathsCol h).length = h.length := by
  simp [deathsCol]

lemma casesCol_getD (h : List HistRow) {i : Nat} (hi : i < h.length) :
    (casesCol h).getD i 0 = ((h.getD i dHist).cases : ℚ) := by
  have h1 : i < (casesCol h).length := by rw [casesCol_length]; exact hi
  rw [List.getD_eq_getElem _ _ h1]
  simp only [casesCol, List.getElem_map]
  rw [← List.getD_eq_getElem h dHist hi]

lemma deathsCol_getD (h : List HistRow) {i : Nat} (hi : i < h.length) :
    (deathsCol h).getD i 0 = ((h.getD i dHist).deaths : ℚ) := by
  have h1 : i < (deathsCol h).length := by rw [deathsCol_length]; exact hi
  rw [List.getD_eq_getElem _ _ h1]
  simp only [deathsCol, List.getElem_map]
  rw [← List.getD_eq_getElem h dHist hi]

lemma seriesDiff_length (xs : List ℚ) : (seriesDiff xs).length = xs.length := by
  cases xs with
  | nil => rfl
  | cons x t => simp [seriesDiff]

lemma seriesDiff_getD_zero (xs : List ℚ) (hx : xs ≠ []) :
    (seriesDiff xs).getD 0 .nan = .nan := by
  cases xs with
  | nil => exact absurd rfl hx
  | cons x t => rfl

lemma seriesDiff_getD_succ (xs : List ℚ) {j : Nat} (hj : j + 1 < xs.length) :
    (seriesDiff xs).getD (j + 1) .nan = .fin (xs.getD (j + 1) 0 - xs.getD j 0) := by
  cases xs with
  | nil => simp at hj
  | cons x t =>
    have hjt : j < t.length := by simp at hj; omega
    have hz : j < (List.zipWith (fun b a => PFloat.fin (b - a)) t (x :: t)).length := by
      simp; omega
    have hstep : (seriesDiff (x :: t)).getD (j + 1) PFloat.nan
        = (List.zipWith (fun b a => PFloat.fin (b - a)) t (x :: t)).getD j PFloat.nan := rfl
    rw [hstep, List.getD_eq_getElem _ _ hz, List.getElem_zipWith]
    rw [List.getD_eq_getElem _ _ hj,
      List.getD_eq_getElem _ _ (by omega : j < (x :: t).length)]
    simp

lemma shiftCol_length (xs : List ℚ) : (shiftCol xs).length = xs.length := by
  cases xs with
  | nil => rfl
  | cons x t => simp [shiftCol]

lemma shiftCol_getD_zero (xs : List ℚ) (hx : xs ≠ []) :
    (shiftCol xs).getD 0 .nan = .nan := by
  cases xs with
  | nil => exact absurd rfl hx
  | cons x t => rfl

lemma shiftCol_getD_succ (xs : List ℚ) {j : Nat} (hj : j + 1 < xs.length) :
    (shiftCol xs).getD (j + 1) .nan = .fin (xs.getD j 0) := by
  cases xs with
  | nil => simp at hj
  | cons x t =>
    have hd : j < ((x :: t).dropLast.map PFloat.fin).length := by
      simp at hj ⊢; omega
    have hstep : (shiftCol (x :: t)).getD (j + 1) PFloat.nan
        = ((x :: t).dropLast.map PFloat.fin).getD j PFloat.nan := rfl
    rw [hstep, List.getD_eq_getElem _ _ hd, List.getElem_map,
      List.getElem_dropLast, ← List.getD_eq_getElem _ _ (by omega : j < (x :: t).length)]

lemma zipWith_getD {α β γ : Type _} (f : α → β → γ) (l1 : List α) (l2 : List β)
    (d1 : α) (d2 : β) (d : γ) {i : Nat} (h1 : i < l1.length) (h2 : i < l2.length) :
    (List.zipWith f l1 l2).getD i d = f (l1.getD i d1) (l2.getD i d2) := by
  have hz : i < (List.zipWith f l1 l2).length := by
    rw [List.length_zipWith]; omega
  rw [List.getD_eq_getElem _ _ hz, List.getElem_zipWith,
    List.getD_eq_getElem _ _ h1, List.getD_eq_getElem _ _ h2]

lemma rolling7_length (xs : List PFloat) : (rolling7 xs).length = xs.length := by
  simp [rolling7]

lemma rolling7_getD (xs : List PFloat) {i : Nat} (hi : i < xs.length) :
    (rolling7 xs).getD i .nan =
      if i < 6 then PFloat.nan
      else
        if ((List.range 7).map (fun k => xs.getD (i - 6 + k) PFloat.nan)).any PFloat.isNan
        then PFloat.nan
        else (((List.range 7).map
            (fun k => xs.getD (i - 6 + k) PFloat.nan)).foldr PFloat.add
            (PFloat.fin 0)).div (PFloat.fin 7) :=
  getD_map_range _ _ hi

lemma perMillionCol_length (tp : ℚ) (xs : List ℚ) :
    (perMillionCol tp xs).length = xs.length := by
  simp [perMillionCol]

lemma perMillionCol_getD (tp : ℚ) (xs : List ℚ) {i : Nat} (hi : i < xs.length) :
    (perMillionCol tp xs).getD i .nan
      = ((PFloat.fin (xs.getD i 0)).div (.fin tp)).mul (.fin 1000000) := by
  have hm : i < (perMillionCol tp xs).length := by rw [perMillionCol_length]; exact hi
  rw [List.getD_eq_getElem _ _ hm]
  simp only [perMillionCol, List.getElem_map]
  rw [← List.getD_eq_getElem _ _ hi]

lemma newCasesCol_getD_zero (h : List HistRow) (hne : h ≠ []) :
    (newCasesCol h).getD 0 .nan = .nan := by
  apply seriesDiff_getD_zero
  simp [casesCol, hne]

lemma newDeathsCol_getD_zero (h : List HistRow) (hne : h ≠ []) :
    (newDeathsCol h).getD 0 .nan = .nan := by
  apply seriesDiff_getD_zero
  simp [deathsCol, hne]

lemma newCasesCol_getD_succ (h : List HistRow) {j : Nat} (hj : j + 1 < h.length) :
    (newCasesCol h).getD (j + 1) .nan
      = .fin (((h.getD (j + 1) dHist).cases : ℚ) - ((h.getD j dHist).cases : ℚ)) := by
  rw [newCasesCol, seriesDiff_getD_succ _ (by rw [casesCol_length]; exact hj),
    casesCol_getD h hj, casesCol_getD h (by omega)]

lemma newDeathsCol_getD_succ (h : List HistRow) {j : Nat} (hj : j + 1 < h.length) :
    (newDeathsCol h).getD (j + 1) .nan
      = .fin (((h.getD (j + 1) dHist).deaths : ℚ) - ((h.getD j dHist).deaths : ℚ)) := by
  rw [newDeathsCol, seriesDiff_getD_succ _ (by rw [deathsCol_length]; exact hj),
    deathsCol_getD h hj, deathsCol_getD h (by omega)]

lemma newCasesCol_length (h : List HistRow) : (newCasesCol h).length = h.length := by
  rw [newCasesCol, seriesDiff_length, casesCol_length]

lemma newDeathsCol_length (h : List HistRow) : (newDeathsCol h).length = h.length := by
  rw [newDeathsCol, seriesDiff_length, deathsCol_length]

lemma growthCol_getD_zero (h : List HistRow) (hne : h ≠ []) :
    (growthCol h).getD 0 .nan = .nan := by
  have h0 : 0 < h.length := List.length_pos.mpr hne
  have hc : casesCol h ≠ [] := by simp [casesCol, hne]
  rw [growthCol,
    zipWith_getD _ _ _ PFloat.nan PFloat.nan _
      (by rw [newCasesCol_length]; exact h0)
      (by rw [shiftCol_length, casesCol_length]; exact h0),
    newCasesCol_getD_zero h hne, shiftCol_getD_zero _ hc]
  rfl

lemma growthCol_getD_succ (h : List HistRow) {j : Nat} (hj : j + 1 < h.length) :
    (growthCol h).getD (j + 1) .nan
      = ((PFloat.fin (((h.getD (j + 1) dHist).cases : ℚ) - ((h.getD j dHist).cases : ℚ))).div
          (PFloat.fin ((h.getD j dHist).cases : ℚ))).mul (.fin 100) := by
  rw [growthCol,
    zipWith_getD _ _ _ PFloat.nan PFloat.nan _
      (by rw [newCasesCol_length]; exact hj)
      (by rw [shiftCol_length, casesCol_length]; exact hj),
    newCasesCol_getD_succ h hj,
    shiftCol_getD_succ _ (by rw [casesCol_length]; exact hj),
    casesCol_getD h (by omega)]

lemma foldr_add_map_fin (l : List ℚ) :
    (l.map PFloat.fin).foldr PFloat.add (PFloat.fin 0) = PFloat.fin l.sum := by
  induction l with
  | nil => simp
  | cons x t ih =>
    simp only [List.map_cons, List.foldr_cons, ih, List.sum_cons]
    rfl

lemma rolling7_seriesDiff_nan (xs : List ℚ) {i : Nat} (hi : i < xs.length) (h7 : i < 7) :
    (rolling7 (seriesDiff xs)).getD i .nan = .nan := by
  have hi' : i < (seriesDiff xs).length := by rw [seriesDiff_length]; exact hi
  rw [rolling7_getD _ hi']
  by_cases h6 : i < 6
  · simp [h6]
  · have hieq : i = 6 := by omega
    subst hieq
    have hne : xs ≠ [] := by
      intro hemp
      rw [hemp] at hi
      simp at hi
    have hw : ((List.range 7).map
        (fun k => (seriesDiff xs).getD (6 - 6 + k) PFloat.nan)).any PFloat.isNan = true := by
      rw [List.any_eq_true]
      refine ⟨PFloat.nan, ?_, rfl⟩
      rw [List.mem_map]
      exact ⟨0, by simp, by simpa using seriesDiff_getD_zero xs hne⟩
    rw [if_neg h6, hw]
    simp

lemma rolling7_seriesDiff_fin (xs : List ℚ) {i : Nat} (hi : i < xs.length) (h7 : 7 ≤ i) :
    (rolling7 (seriesDiff xs)).getD i .nan
      = .fin ((((List.range 7).map
          (fun k => xs.getD (i - 6 + k) 0 - xs.getD (i - 7 + k) 0))).sum / 7) := by
  have hi' : i < (seriesDiff xs).length := by rw [seriesDiff_length]; exact hi
  rw [rolling7_getD _ hi', if_neg (by omega : ¬ i < 6)]
  have hwin : ((List.range 7).map (fun k => (seriesDiff xs).getD (i - 6 + k) PFloat.nan))
      = ((List.range 7).map
          (fun k => xs.getD (i - 6 + k) 0 - xs.getD (i - 7 + k) 0)).map PFloat.fin := by
    rw [List.map_map]
    apply List.map_congr_left
    intro k hk
    rw [List.mem_range] at hk
    have hk6 : i - 6 + k = (i - 7 + k) + 1 := by omega
    rw [hk6, seriesDiff_getD_succ xs (by omega : (i - 7 + k) + 1 < xs.length)]
    simp [hk6]
  rw [hwin, foldr_add_map_fin]
  have hnonan : (((List.range 7).map
      (fun k => xs.getD (i - 6 + k) 0 - xs.getD (i - 7 + k) 0)).map PFloat.fin).any
      PFloat.isNan = false := by
    simp [PFloat.isNan]
  rw [hnonan]
  simp only [Bool.false_eq_true, if_false]
  rw [PFloat.div]
  norm_num

lemma casesMa7Col_getD_nan (h : List HistRow) {i : Nat} (hi : i < h.length)
    (h7 : i < 7) : (casesMa7Col h).getD i .nan = .nan := by
  rw [casesMa7Col, newCasesCol]
  exact rolling7_seriesDiff_nan _ (by rw [casesCol_length]; exact hi) h7

lemma deathsMa7Col_getD_nan (h : List HistRow) {i : Nat} (hi : i < h.length)
    (h7 : i < 7) : (deathsMa7Col h).getD i .nan = .nan := by
  rw [deathsMa7Col, newDeathsCol]
  exact rolling7_seriesDiff_nan _ (by rw [deathsCol_length]; exact hi) h7

lemma casesMa7Col_getD_fin (h : List HistRow) {i : Nat} (hi : i < h.length)
    (h7 : 7 ≤ i) :
    (casesMa7Col h).getD i .nan
      = .fin ((((List.range 7).map
          (fun k => ((h.getD (i - 6 + k) dHist).cases : ℚ)
            - ((h.getD (i - 7 + k) dHist).cases : ℚ))).sum) / 7) := by
  rw [casesMa7Col, newCasesCol,
    rolling7_seriesDiff_fin _ (by rw [casesCol_length]; exact hi) h7]
  congr 1
  congr 1
  congr 1
  apply List.map_congr_left
  intro k hk
  rw [List.mem_range] at hk
  rw [casesCol_getD h (by omega), casesCol_getD h (by omega)]

lemma deathsMa7Col_getD_fin (h : List HistRow) {i : Nat} (hi : i < h.length)
    (h7 : 7 ≤ i) :
    (deathsMa7Col h).getD i .nan
      = .fin ((((List.range 7).map
          (fun k => ((h.getD (i - 6 + k) dHist).deaths : ℚ)
            - ((h.getD (i - 7 + k) dHist).deaths : ℚ))).sum) / 7) := by
  rw [deathsMa7Col, newDeathsCol,
    rolling7_seriesDiff_fin _ (by rw [deathsCol_length]; exact hi) h7]
  congr 1
  congr 1
  congr 1
  apply List.map_congr_left
  intro k hk
  rw [List.mem_range] at hk
  rw [deathsCol_getD h (by omega), deathsCol_getD h (by omega)]

lemma transform_data_map_date (h : List HistRow) (c : List (Option ℚ)) :
    (transform_data h c).map EnrichedRow.date = h.map HistRow.date := by
  apply List.ext_getElem
  · simp [length_transform_data]
  · intro i h1 h2
    rw [List.getElem_map, List.getElem_map]
    have hi : i < h.length := by
      rw [List.length_map] at h2
      exact h2
    rw [← List.getD_eq_getElem (transform_data h c) dRow
        (by rw [length_transform_data]; exact hi),
      transform_data_getD h c hi, ← List.getD_eq_getElem h dHist hi]

/-! ### Claim C5 -/

/-- C5: when the historical input is empty (zero dates), `transform_data`
returns an empty sequence of records; being a total function of its inputs,
it raises no fault. -/
theorem C5_empty_input (c : List (Option ℚ)) : transform_data [] c = [] := rfl

/-! ### Claim C8 -/

/-- C8: `total_population` (line 47) is a single scalar equal to the sum of
the non-null population values of the country snapshot; a null-population
entity contributes nothing to the sum and causes no error (prepending a
null entity leaves the total unchanged). -/
theorem C8_population_sum (c : List (Option ℚ)) :
    total_population c = (c.filterMap id).sum ∧
    total_population (none :: c) = total_population c := by
  constructor
  · induction c with
    | nil => rfl
    | cons o t ih => cases o <;> simp [total_population, ih]
  · rfl

/-! ### Claim C7 -/

/-- C7: for every output index `i > 0`, `new_cases[i]` is exactly the
integer difference `cases[i] - cases[i-1]` (embedded into the exact value of
the float column, no rounding), and `new_deaths[i]` is exactly
`deaths[i] - deaths[i-1]`. -/
theorem C7_delta_exact (h : List HistRow) (c : List (Option ℚ)) (i : Nat)
    (hi : i < h.length) (hpos : 0 < i) :
    ((transform_data h c).getD i dRow).new_cases
        = .fin (((h.getD i dHist).cases - (h.getD (i - 1) dHist).cases : ℤ) : ℚ) ∧
    ((transform_data h c).getD i dRow).new_deaths
        = .fin (((h.getD i dHist).deaths - (h.getD (i - 1) dHist).deaths : ℤ) : ℚ) := by
  obtain ⟨j, rfl⟩ : ∃ j, i = j + 1 := ⟨i - 1, by omega⟩
  rw [transform_data_getD h c hi]
  simp only [Nat.add_sub_cancel]
  constructor
  · show (newCasesCol h).getD (j + 1) PFloat.nan = _
    rw [newCasesCol_getD_succ h hi]
    congr 1
    push_cast
    ring
  · show (newDeathsCol h).getD (j + 1) PFloat.nan = _
    rw [newDeathsCol_getD_succ h hi]
    congr 1
    push_cast
    ring

/-- C7 witness: the theorem applied at the concrete two-day input of
Scenario A (cases 1 then 3) at index 1. -/
theorem C7_witness :
    ((transform_data [⟨0, 1, 0⟩, ⟨1, 3, 0⟩] [some 1000000]).getD 1 dRow).new_cases
        = .fin (((([⟨0, 1, 0⟩, ⟨1, 3, 0⟩] : List HistRow).getD 1 dHist).cases
            - (([⟨0, 1, 0⟩, ⟨1, 3, 0⟩] : List HistRow).getD 0 dHist).cases : ℤ) : ℚ) ∧
    ((transform_data [⟨0, 1, 0⟩, ⟨1, 3, 0⟩] [some 1000000]).getD 1 dRow).new_deaths
        = .fin (((([⟨0, 1, 0⟩, ⟨1, 3, 0⟩] : List HistRow).getD 1 dHist).deaths
            - (([⟨0, 1, 0⟩, ⟨1, 3, 0⟩] : List HistRow).getD 0 dHist).deaths : ℤ) : ℚ) :=
  C7_delta_exact [⟨0, 1, 0⟩, ⟨1, 3, 0⟩] [some 1000000] 1 (by decide) (by decide)

/-! ### Claim C1 -/

/-- C1 counterexample: the input `[(date 2), (date 1)]` has two distinct
dates but is not pre-sorted, and the country snapshot `[some 1000000]` is a
real one-entity snapshot (so line 47 succeeds and the run completes);
`transform_data` performs no sort (lines 31-32 only assign a parsed index),
so the output dates come out in input order `[2, 1]`, which is not strictly
ascending.  This falsifies the claim that the output is sorted for inputs
that are not pre-sorted. -/
theorem C1_counterexample :
    (([⟨2, 1, 0⟩, ⟨1, 3, 0⟩] : List HistRow).map HistRow.date).Nodup ∧
    (transform_data [⟨2, 1, 0⟩, ⟨1, 3, 0⟩] [some 1000000]).map EnrichedRow.date
      = [2, 1] ∧
    ¬ List.Pairwise (· < ·)
      ((transform_data [⟨2, 1, 0⟩, ⟨1, 3, 0⟩] [some 1000000]).map EnrichedRow.date) := by
  refine ⟨by decide, transform_data_map_date _ _, ?_⟩
  rw [transform_data_map_date]
  decide

/-- C1 amended: for every input, `transform_data` returns exactly one
record per input date, in the input's own order (so no row is filtered and
no duplicate is introduced) — this part holds unconditionally, sorted or
not; and whenever the input is already in ascending date order, the output
is sorted strictly ascending by date.  The code never sorts. -/
theorem C1_order (h : List HistRow) (c : List (Option ℚ)) :
    (transform_data h c).length = h.length ∧
    (transform_data h c).map EnrichedRow.date = h.map HistRow.date ∧
    (List.Pairwise (fun a b => a.date < b.date) h →
      List.Pairwise (· < ·) ((transform_data h c).map EnrichedRow.date)) := by
  refine ⟨length_transform_data h c, transform_data_map_date h c, fun hsorted => ?_⟩
  rw [transform_data_map_date h c, List.pairwise_map]
  exact hsorted

/-- C1 witness: the amended theorem applied to a concrete sorted two-day
input with a real one-entity country snapshot, discharging the sorted-input
condition of the last conjunct there. -/
theorem C1_witness :
    (transform_data [⟨1, 1, 0⟩, ⟨2, 3, 0⟩] [some 1000000]).length
        = ([⟨1, 1, 0⟩, ⟨2, 3, 0⟩] : List HistRow).length ∧
    (transform_data [⟨1, 1, 0⟩, ⟨2, 3, 0⟩] [some 1000000]).map EnrichedRow.date
        = ([⟨1, 1, 0⟩, ⟨2, 3, 0⟩] : List HistRow).map HistRow.date ∧
    List.Pairwise (· < ·)
      ((transform_data [⟨1, 1, 0⟩, ⟨2, 3, 0⟩] [some 1000000]).map EnrichedRow.date) :=
  ⟨(C1_order [⟨1, 1, 0⟩, ⟨2, 3, 0⟩] [some 1000000]).1,
   (C1_order [⟨1, 1, 0⟩, ⟨2, 3, 0⟩] [some 1000000]).2.1,
   (C1_order [⟨1, 1, 0⟩, ⟨2, 3, 0⟩] [some 1000000]).2.2 (by decide)⟩

/-! ### Claim C6 -/

/-- C6 counterexample: for the non-empty historical input `[(0, 0, 0)]` with
a one-entity country snapshot whose population field is null (a real run:
the `population` column exists, holds one NaN, and sums to 0 under
`skipna`), `total_population = 0` and the first record's
`cases_per_million` is `0/0 = NaN`, i.e. not defined — contradicting the
claim that `cases_per_million` is defined on the first record for every
non-empty input. -/
theorem C6_counterexample :
    total_population [none] = 0 ∧
    ((transform_data [⟨0, 0, 0⟩] [none]).getD 0 dRow).cases_per_million
      = PFloat.nan := by
  refine ⟨rfl, ?_⟩
  rw [transform_data_getD _ _ (by decide)]
  show (perMillionCol (total_population [none]) (casesCol [⟨0, 0, 0⟩])).getD 0
      PFloat.nan = _
  rw [perMillionCol_getD _ _ (by decide)]
  norm_num [casesCol, dHist, total_population, PFloat.div]
  rfl

/-- C6 amended: for every non-empty input whose country snapshot has nonzero
total population, the first output record has `new_cases`, `new_deaths`,
`growth_rate`, `cases_ma7`, `deaths_ma7` all NaN (undefined) regardless of
input values, while `cases`, `deaths` are the passthrough integers and
`cases_per_million`, `deaths_per_million` are finite values. -/
theorem C6_first_row (h : List HistRow) (c : List (Option ℚ)) (hne : h ≠ [])
    (htp : total_population c ≠ 0) :
    ((transform_data h c).getD 0 dRow).new_cases = PFloat.nan ∧
    ((transform_data h c).getD 0 dRow).new_deaths = PFloat.nan ∧
    ((transform_data h c).getD 0 dRow).growth_rate = PFloat.nan ∧
    ((transform_data h c).getD 0 dRow).cases_ma7 = PFloat.nan ∧
    ((transform_data h c).getD 0 dRow).deaths_ma7 = PFloat.nan ∧
    ((transform_data h c).getD 0 dRow).cases = (h.getD 0 dHist).cases ∧
    ((transform_data h c).getD 0 dRow).deaths = (h.getD 0 dHist).deaths ∧
    ((transform_data h c).getD 0 dRow).cases_per_million
      = PFloat.fin (((h.getD 0 dHist).cases : ℚ) / total_population c * 1000000) ∧
    ((transform_data h c).getD 0 dRow).deaths_per_million
      = PFloat.fin (((h.getD 0 dHist).deaths : ℚ) / total_population c * 1000000) := by
  have h0 : 0 < h.length := List.length_pos.mpr hne
  rw [transform_data_getD h c h0]
  refine ⟨?_, ?_, ?_, ?_, ?_, rfl, rfl, ?_, ?_⟩
  · exact newCasesCol_getD_zero h hne
  · exact newDeathsCol_getD_zero h hne
  · exact growthCol_getD_zero h hne
  · exact casesMa7Col_getD_nan h h0 (by omega)
  · exact deathsMa7Col_getD_nan h h0 (by omega)
  · show (perMillionCol (total_population c) (casesCol h)).getD 0 PFloat.nan = _
    rw [perMillionCol_getD _ _ (by rw [casesCol_length]; exact h0),
      casesCol_getD h h0]
    simp [PFloat.div, PFloat.mul, htp]
  · show (perMillionCol (total_population c) (deathsCol h)).getD 0 PFloat.nan = _
    rw [perMillionCol_getD _ _ (by rw [deathsCol_length]; exact h0),
      deathsCol_getD h h0]
    simp [PFloat.div, PFloat.mul, htp]

/-- C6 witness: the amended theorem applied at a concrete one-day input with
a one-country snapshot of population 1000000. -/
theorem C6_witness :
    ((transform_data [⟨5, 1, 2⟩] [some 1000000]).getD 0 dRow).new_cases = PFloat.nan ∧
    ((transform_data [⟨5, 1, 2⟩] [some 1000000]).getD 0 dRow).new_deaths = PFloat.nan ∧
    ((transform_data [⟨5, 1, 2⟩] [some 1000000]).getD 0 dRow).growth_rate = PFloat.nan ∧
    ((transform_data [⟨5, 1, 2⟩] [some 1000000]).getD 0 dRow).cases_ma7 = PFloat.nan ∧
    ((transform_data [⟨5, 1, 2⟩] [some 1000000]).getD 0 dRow).deaths_ma7 = PFloat.nan ∧
    ((transform_data [⟨5, 1, 2⟩] [some 1000000]).getD 0 dRow).cases
      = (([⟨5, 1, 2⟩] : List HistRow).getD 0 dHist).cases ∧
    ((transform_data [⟨5, 1, 2⟩] [some 1000000]).getD 0 dRow).deaths
      = (([⟨5, 1, 2⟩] : List HistRow).getD 0 dHist).deaths ∧
    ((transform_data [⟨5, 1, 2⟩] [some 1000000]).getD 0 dRow).cases_per_million
      = PFloat.fin (((([⟨5, 1, 2⟩] : List HistRow).getD 0 dHist).cases : ℚ)
          / total_population [some 1000000] * 1000000) ∧
    ((transform_data [⟨5, 1, 2⟩] [some 1000000]).getD 0 dRow).deaths_per_million
      = PFloat.fin (((([⟨5, 1, 2⟩] : List HistRow).getD 0 dHist).deaths : ℚ)
          / total_population [some 1000000] * 1000000) :=
  C6_first_row [⟨5, 1, 2⟩] [some 1000000] (by simp) (by simp [total_population])

lemma PFloat.div_fin_zero (a : ℚ) :
    (PFloat.fin a).div (PFloat.fin 0)
      = if a = 0 then PFloat.nan else if 0 < a then PFloat.inf true else PFloat.inf false := by
  by_cases h0 : a = 0
  · simp [PFloat.div, h0]
  · by_cases hp : 0 < a
    · simp [PFloat.div, h0, hp]
    · simp [PFloat.div, h0, hp]

lemma div_fin_zero_int (a : ℤ) :
    (PFloat.fin (a : ℚ)).div (PFloat.fin 0)
      = if a = 0 then PFloat.nan else if 0 < a then PFloat.inf true else PFloat.inf false := by
  rw [PFloat.div_fin_zero]
  simp [Int.cast_pos]

lemma PFloat.inf_mul_fin_pos (p : Bool) (c : ℚ) (hc : 0 < c) :
    (PFloat.inf p).mul (PFloat.fin c) = PFloat.inf p := by
  simp [PFloat.mul, hc.ne', decide_eq_true hc]

/-! ### Claim C3 -/

/-- C3 counterexample: with cumulative cases `[0, 5]` and a real one-entity
country snapshot (so line 47 succeeds and the run completes), the previous
count at index 1 is 0 and the delta is 5; line 40 divides `5 / 0`, which
numpy/pandas evaluate to `+inf`, so `growth_rate[1]` is positive infinity —
not the undefined (NaN) value the claim requires. -/
theorem C3_counterexample :
    ((transform_data [⟨0, 0, 0⟩, ⟨1, 5, 0⟩] [some 1000000]).getD 1 dRow).growth_rate
      = PFloat.inf true ∧
    PFloat.inf true ≠ PFloat.nan := by
  refine ⟨?_, fun hcon => PFloat.noConfusion hcon⟩
  rw [transform_data_getD _ _ (by decide)]
  show (growthCol [⟨0, 0, 0⟩, ⟨1, 5, 0⟩]).getD (0 + 1) PFloat.nan = _
  rw [growthCol_getD_succ _ (by decide)]
  norm_num [dHist, PFloat.div, PFloat.mul]

/-- C3 amended: when `cases[i-1] == 0` (for `0 < i < N`), the computation
does not crash and `new_cases[i]` is still the exact difference
`cases[i] - cases[i-1]`, but `growth_rate[i]` is NaN (undefined) only when
`cases[i] = 0`; when `cases[i] ≠ 0` it is a signed infinity (`+inf` for a
positive delta), because line 40's division by zero follows numpy's IEEE
semantics rather than being guarded. -/
theorem C3_zero_base_growth (h : List HistRow) (c : List (Option ℚ)) (i : Nat)
    (hi : i < h.length) (hpos : 0 < i)
    (hz : (h.getD (i - 1) dHist).cases = 0) :
    ((transform_data h c).getD i dRow).new_cases
        = .fin (((h.getD i dHist).cases : ℚ) - ((h.getD (i - 1) dHist).cases : ℚ)) ∧
    ((transform_data h c).getD i dRow).growth_rate
        = (if (h.getD i dHist).cases = 0 then PFloat.nan
           else if 0 < (h.getD i dHist).cases then PFloat.inf true
           else PFloat.inf false) := by
  obtain ⟨j, rfl⟩ : ∃ j, i = j + 1 := ⟨i - 1, by omega⟩
  rw [transform_data_getD h c hi]
  simp only [Nat.add_sub_cancel] at hz ⊢
  constructor
  · show (newCasesCol h).getD (j + 1) PFloat.nan = _
    rw [newCasesCol_getD_succ h hi]
  · show (growthCol h).getD (j + 1) PFloat.nan = _
    rw [growthCol_getD_succ h hi, hz]
    push_cast
    rw [sub_zero, div_fin_zero_int]
    split_ifs with h1 h2
    · rfl
    · exact PFloat.inf_mul_fin_pos true 100 (by norm_num)
    · exact PFloat.inf_mul_fin_pos false 100 (by norm_num)

/-- C3 witness: the amended theorem applied at cumulative cases `[0, 5]`,
index 1. -/
theorem C3_witness :
    ((transform_data [⟨0, 0, 0⟩, ⟨1, 5, 0⟩] [some 1000000]).getD 1 dRow).new_cases
        = .fin (((([⟨0, 0, 0⟩, ⟨1, 5, 0⟩] : List HistRow).getD 1 dHist).cases : ℚ)
            - ((([⟨0, 0, 0⟩, ⟨1, 5, 0⟩] : List HistRow).getD 0 dHist).cases : ℚ)) ∧
    ((transform_data [⟨0, 0, 0⟩, ⟨1, 5, 0⟩] [some 1000000]).getD 1 dRow).growth_rate
        = (if (([⟨0, 0, 0⟩, ⟨1, 5, 0⟩] : List HistRow).getD 1 dHist).cases = 0
           then PFloat.nan
           else if 0 < (([⟨0, 0, 0⟩, ⟨1, 5, 0⟩] : List HistRow).getD 1 dHist).cases
           then PFloat.inf true
           else PFloat.inf false) :=
  C3_zero_base_growth [⟨0, 0, 0⟩, ⟨1, 5, 0⟩] [some 1000000] 1 (by decide) (by decide) rfl

/-! ### Claim C4 -/

/-- C4 counterexample: with one historical row of 5 cumulative cases and a
country snapshot whose only population is null, `total_population = 0`, and
lines 48-49 compute `5 / 0 * 1000000`, which numpy/pandas evaluate to
`+inf` — an infinite value, not the undefined (NaN) result the claim
requires for every row. -/
theorem C4_counterexample :
    total_population [none] = 0 ∧
    ((transform_data [⟨0, 5, 0⟩] [none]).getD 0 dRow).cases_per_million
      = PFloat.inf true ∧
    PFloat.inf true ≠ PFloat.nan := by
  refine ⟨rfl, ?_, fun hcon => PFloat.noConfusion hcon⟩
  rw [transform_data_getD _ _ (by decide)]
  show (perMillionCol (total_population [none]) (casesCol [⟨0, 5, 0⟩])).getD 0
      PFloat.nan = _
  rw [perMillionCol_getD _ _ (by decide)]
  norm_num [casesCol, dHist, total_population, PFloat.div, PFloat.mul]

/-- C4 amended: if `total_population = 0`, no division-by-zero fault occurs,
but `cases_per_million[i]` (and likewise `deaths_per_million[i]`) is NaN
(undefined) only on rows whose cumulative counter is 0; on rows with a
nonzero counter it is a signed infinity (`+inf` for positive counts),
because lines 48-49 divide by zero under numpy's IEEE semantics instead of
being guarded. -/
theorem C4_zero_population (h : List HistRow) (c : List (Option ℚ)) (i : Nat)
    (hi : i < h.length) (htp : total_population c = 0) :
    ((transform_data h c).getD i dRow).cases_per_million
        = (if (h.getD i dHist).cases = 0 then PFloat.nan
           else if 0 < (h.getD i dHist).cases then PFloat.inf true
           else PFloat.inf false) ∧
    ((transform_data h c).getD i dRow).deaths_per_million
        = (if (h.getD i dHist).deaths = 0 then PFloat.nan
           else if 0 < (h.getD i dHist).deaths then PFloat.inf true
           else PFloat.inf false) := by
  rw [transform_data_getD h c hi]
  constructor
  · show (perMillionCol (total_population c) (casesCol h)).getD i PFloat.nan = _
    rw [perMillionCol_getD _ _ (by rw [casesCol_length]; exact hi),
      casesCol_getD h hi, htp, div_fin_zero_int]
    split_ifs with h1 h2
    · rfl
    · exact PFloat.inf_mul_fin_pos true 1000000 (by norm_num)
    · exact PFloat.inf_mul_fin_pos false 1000000 (by norm_num)
  · show (perMillionCol (total_population c) (deathsCol h)).getD i PFloat.nan = _
    rw [perMillionCol_getD _ _ (by rw [deathsCol_length]; exact hi),
      deathsCol_getD h hi, htp, div_fin_zero_int]
    split_ifs with h1 h2
    · rfl
    · exact PFloat.inf_mul_fin_pos true 1000000 (by norm_num)
    · exact PFloat.inf_mul_fin_pos false 1000000 (by norm_num)

/-- C4 witness: the amended theorem applied at one row with 5 cumulative
cases and an all-null country snapshot. -/
theorem C4_witness :
    ((transform_data [⟨0, 5, 0⟩] [none]).getD 0 dRow).cases_per_million
        = (if (([⟨0, 5, 0⟩] : List HistRow).getD 0 dHist).cases = 0
           then PFloat.nan
           else if 0 < (([⟨0, 5, 0⟩] : List HistRow).getD 0 dHist).cases
           then PFloat.inf true
           else PFloat.inf false) ∧
    ((transform_data [⟨0, 5, 0⟩] [none]).getD 0 dRow).deaths_per_million
        = (if (([⟨0, 5, 0⟩] : List HistRow).getD 0 dHist).deaths = 0
           then PFloat.nan
           else if 0 < (([⟨0, 5, 0⟩] : List HistRow).getD 0 dHist).deaths
           then PFloat.inf true
           else PFloat.inf false) :=
  C4_zero_population [⟨0, 5, 0⟩] [none] 0 (by decide) rfl

/-! ### Claim C2 -/

/-- C2: `cases_ma7[i]` is non-NaN (defined) iff `i ≥ 7` (0-based over the
output); when defined it equals the arithmetic mean of the seven
`new_cases` window values at indices `i-6..i` (each of which is the exact
delta of consecutive cumulative counts); a window overlapping index 0,
whose delta is NaN, gives NaN, never a partial-window mean (that is the
`i = 6` case of the iff, and indices below 6 have fewer than 7 window
entries).  The same holds for `deaths_ma7` over `new_deaths`. -/
theorem C2_ma7_window (h : List HistRow) (c : List (Option ℚ)) (i : Nat)
    (hi : i < h.length) :
    (((transform_data h c).getD i dRow).cases_ma7 ≠ PFloat.nan ↔ 7 ≤ i) ∧
    (((transform_data h c).getD i dRow).deaths_ma7 ≠ PFloat.nan ↔ 7 ≤ i) ∧
    (7 ≤ i →
      (∀ k, k < 7 →
        ((transform_data h c).getD (i - 6 + k) dRow).new_cases
          = .fin (((h.getD (i - 6 + k) dHist).cases : ℚ)
              - ((h.getD (i - 7 + k) dHist).cases : ℚ)) ∧
        ((transform_data h c).getD (i - 6 + k) dRow).new_deaths
          = .fin (((h.getD (i - 6 + k) dHist).deaths : ℚ)
              - ((h.getD (i - 7 + k) dHist).deaths : ℚ))) ∧
      ((transform_data h c).getD i dRow).cases_ma7
        = .fin ((((List.range 7).map
            (fun k => ((h.getD (i - 6 + k) dHist).cases : ℚ)
              - ((h.getD (i - 7 + k) dHist).cases : ℚ))).sum) / 7) ∧
      ((transform_data h c).getD i dRow).deaths_ma7
        = .fin ((((List.range 7).map
            (fun k => ((h.getD (i - 6 + k) dHist).deaths : ℚ)
              - ((h.getD (i - 7 + k) dHist).deaths : ℚ))).sum) / 7)) := by
  rw [transform_data_getD h c hi]
  refine ⟨?_, ?_, fun h7 => ⟨fun k hk => ?_, ?_, ?_⟩⟩
  · show (casesMa7Col h).getD i PFloat.nan ≠ PFloat.nan ↔ 7 ≤ i
    constructor
    · intro hdef
      by_contra hlt
      exact hdef (casesMa7Col_getD_nan h hi (by omega))
    · intro h7
      rw [casesMa7Col_getD_fin h hi h7]
      exact fun hcon => PFloat.noConfusion hcon
  · show (deathsMa7Col h).getD i PFloat.nan ≠ PFloat.nan ↔ 7 ≤ i
    constructor
    · intro hdef
      by_contra hlt
      exact hdef (deathsMa7Col_getD_nan h hi (by omega))
    · intro h7
      rw [deathsMa7Col_getD_fin h hi h7]
      exact fun hcon => PFloat.noConfusion hcon
  · have hb : i - 6 + k < h.length := by omega
    have hsucc : i - 6 + k = (i - 7 + k) + 1 := by omega
    rw [transform_data_getD h c hb]
    constructor
    · show (newCasesCol h).getD (i - 6 + k) PFloat.nan = _
      rw [hsucc, newCasesCol_getD_succ h (by omega)]
    · show (newDeathsCol h).getD (i - 6 + k) PFloat.nan = _
      rw [hsucc, newDeathsCol_getD_succ h (by omega)]
  · exact casesMa7Col_getD_fin h hi h7
  · exact deathsMa7Col_getD_fin h hi h7

/-- C2 witness: the theorem applied at index 7 of a 9-day input whose
per-day case deltas are Scenario B's `[10,10,10,10,10,10,10,70]`. -/
theorem C2_witness :
    (7:ℕ) < ([⟨0, 0, 0⟩, ⟨1, 10, 0⟩, ⟨2, 20, 0⟩, ⟨3, 30, 0⟩, ⟨4, 40, 0⟩,
      ⟨5, 50, 0⟩, ⟨6, 60, 0⟩, ⟨7, 70, 0⟩, ⟨8, 140, 0⟩] : List HistRow).length ∧
    (((transform_data [⟨0, 0, 0⟩, ⟨1, 10, 0⟩, ⟨2, 20, 0⟩, ⟨3, 30, 0⟩, ⟨4, 40, 0⟩,
        ⟨5, 50, 0⟩, ⟨6, 60, 0⟩, ⟨7, 70, 0⟩, ⟨8, 140, 0⟩] [some 1000000]).getD 7 dRow).cases_ma7
      ≠ PFloat.nan ↔ 7 ≤ 7) :=
  ⟨by decide,
    (C2_ma7_window [⟨0, 0, 0⟩, ⟨1, 10, 0⟩, ⟨2, 20, 0⟩, ⟨3, 30, 0⟩, ⟨4, 40, 0⟩,
      ⟨5, 50, 0⟩, ⟨6, 60, 0⟩, ⟨7, 70, 0⟩, ⟨8, 140, 0⟩] [some 1000000] 7 (by decide)).1⟩

/-!
### Column-level model for the frame layout and argument mutation claims

`transform_data` above fixes the historical series to `cases`/`deaths` in
order to reason about values.  Lines 31-55 are, however, generic in the set
of series the date-keyed input mapping carries (`pd.DataFrame` keeps every
key as a column; the disease.sh historical endpoint delivers `cases`,
`deaths` and `recovered`), so the frame-layout and argument-mutation claims
are settled on a column-granular model of the same lines.
-/

/-- The raw historical argument at the granularity pandas sees it: the
parsed date index and one named series per key of the input mapping, in
insertion order. -/
structure RawHistorical where
  dates : List Nat
  series : List (String × List ℚ)
deriving DecidableEq, Repr

/-- A pandas DataFrame at column granularity: a row-label index and named
float columns in insertion order. -/
structure PandasDF where
  index : List Nat
  cols : List (String × List PFloat)
deriving DecidableEq, Repr

/-- The frame's column names, in frame order. -/
def dfColNames (df : PandasDF) : List String := df.cols.map Prod.fst

/-- `df[name]` read access for a column present in the frame.  pandas
raises `KeyError` for an absent column (an input mapping without a `cases`
series would make line 38 raise and the run return nothing), so the
column-level claims below evaluate this model only on frames that carry
every series lines 38-49 read; the `[]` fallback for an absent name merely
keeps the function total and is never reached on those inputs. -/
def dfGetCol (df : PandasDF) (name : String) : List PFloat :=
  match df.cols.find? (fun p => p.1 == name) with
  | some p => p.2
  | none => []

/-- `df[name] = xs`: pandas column assignment overwrites an existing column
in place, or appends a new column after the existing ones. -/
def dfSetCol (df : PandasDF) (name : String) (xs : List PFloat) : PandasDF :=
  if name ∈ dfColNames df then
    { df with cols := df.cols.map (fun p => if p.1 = name then (name, xs) else p) }
  else
    { df with cols := df.cols ++ [(name, xs)] }

/-- `series.diff()` on an already-float column. -/
def diffP (xs : List PFloat) : List PFloat :=
  match xs with
  | [] => []
  | _ :: t => .nan :: List.zipWith PFloat.sub t xs

/-- `series.shift(1)` on a float column. -/
def shiftP (xs : List PFloat) : List PFloat :=
  match xs with
  | [] => []
  | _ :: _ => .nan :: xs.dropLast

/-- Column-level embedding of `transform_data` (lines 26-55).  The returned
triple is (the historical argument's value after the call, the countries
argument's value after the call, the result frame).  `pd.DataFrame(...)`
(line 31) copies the mapping into a fresh frame and line 32 re-assigns only
that frame's index; every assignment in lines 38-53 targets the local
`df_historical` (or rebinds the local name), so the two argument objects
flow through unchanged. -/
def transform_mem (historical : RawHistorical) (countries : List (Option ℚ)) :
    RawHistorical × List (Option ℚ) × PandasDF :=
  let df0 : PandasDF :=
    { index := historical.dates
      cols := historical.series.map (fun p => (p.1, p.2.map PFloat.fin)) }
  let df1 := dfSetCol df0 "new_cases" (diffP (dfGetCol df0 "cases"))
  let df2 := dfSetCol df1 "new_deaths" (diffP (dfGetCol df1 "deaths"))
  let df3 := dfSetCol df2 "growth_rate"
    (List.zipWith (fun a b => (a.div b).mul (.fin 100))
      (dfGetCol df2 "new_cases") (shiftP (dfGetCol df2 "cases")))
  let df4 := dfSetCol df3 "cases_ma7" (rolling7 (dfGetCol df3 "new_cases"))
  let df5 := dfSetCol df4 "deaths_ma7" (rolling7 (dfGetCol df4 "new_deaths"))
  let df6 := dfSetCol df5 "cases_per_million"
    ((dfGetCol df5 "cases").map
      (fun v => (v.div (.fin (total_population countries))).mul (.fin 1000000)))
  let df7 := dfSetCol df6 "deaths_per_million"
    ((dfGetCol df6 "deaths").map
      (fun v => (v.div (.fin (total_population countries))).mul (.fin 1000000)))
  let df8 : PandasDF :=
    { index := List.range df7.index.length
      cols := ("date", df7.index.map (fun d => PFloat.fin (d : ℚ))) :: df7.cols }
  (historical, countries, df8)

/-- The ten output fields §3 of the specification lists, in the listed
order; stated from the spec's words, to compare with the frame the code
produces. -/
def specEnrichedFields : List String :=
  ["date", "cases", "deaths", "new_cases", "new_deaths", "growth_rate",
   "cases_ma7", "deaths_ma7", "cases_per_million", "deaths_per_million"]

/-! ### Claim C9 -/

/-- C9 counterexample: with the three series the historical endpoint
actually delivers (`cases`, `deaths`, `recovered`) and a real one-entity
country snapshot (so line 47 succeeds and the run completes), the output
frame keeps the extra `recovered` series, which is not an `EnrichedRecord`
field; and even with exactly the two spec series, the output has ten
columns, not eleven. -/
theorem C9_counterexample :
    "recovered" ∈ dfColNames
      (transform_mem ⟨[0], [("cases", [1]), ("deaths", [0]), ("recovered", [0])]⟩
        [some 1000000]).2.2 ∧
    "recovered" ∉ specEnrichedFields ∧
    (dfColNames
        (transform_mem ⟨[0], [("cases", [1]), ("deaths", [0])]⟩ [some 1000000]).2.2).length
      = 10 := by
  refine ⟨by decide, by decide, by decide⟩

/-- C9 amended: the output frame's columns are `date`, then every input
series in input order, then the seven derived metric columns in lines
38-49's order.  For an input carrying exactly the `cases` and `deaths`
series this is exactly the ten §3 fields in §3's order (ten fields, not
eleven); a third input series such as `recovered` is carried through and
appears in the output between `deaths` and `new_cases`. -/
theorem C9_columns (dts : List Nat) (cs ds rs : List ℚ) (c : List (Option ℚ)) :
    dfColNames (transform_mem ⟨dts, [("cases", cs), ("deaths", ds)]⟩ c).2.2
      = specEnrichedFields ∧
    dfColNames
        (transform_mem ⟨dts, [("cases", cs), ("deaths", ds), ("recovered", rs)]⟩ c).2.2
      = ["date", "cases", "deaths", "recovered", "new_cases", "new_deaths",
         "growth_rate", "cases_ma7", "deaths_ma7", "cases_per_million",
         "deaths_per_million"] := by
  constructor <;>
    simp [transform_mem, dfSetCol, dfColNames, specEnrichedFields]

/-! ### Claim C10 -/

/-- C10: the transform never mutates its two arguments: every frame written
in lines 31-53 is freshly constructed from copies of the inputs, so after
the call both argument objects hold their original values. -/
theorem C10_no_mutation (historical : RawHistorical) (countries : List (Option ℚ)) :
    (transform_mem historical countries).1 = historical ∧
    (transform_mem historical countries).2.1 = countries :=
  ⟨rfl, rfl⟩
